import Mathlib

/-!
Shallow embedding of the task-management-system core (Go): the task
lifecycle use case, the user directory use case and the auth/token use
case, together with the MongoDB repository operations they call. IDs
(`primitive.ObjectID`, 12 bytes) are modelled as natural numbers below
2^96; the zero ObjectID is `0`. `time.Time` values are modelled as
integer timestamps with the zero time as `0`. The in-process MongoDB
collections are modelled as lists held in a `Store`; each use-case
operation returns its Go result together with the store after the call.
-/

namespace TaskMgmt

/-- `primitive.ObjectID`, modelled by its 96-bit value; the zero ObjectID is 0. -/
abbrev ObjectID := Nat

/-- Whether a character is an ASCII hex digit (as accepted by `hex.Decode`). -/
def isHexDigitChar (c : Char) : Bool :=
  c.isDigit || (decide (97 ≤ c.toNat) && decide (c.toNat ≤ 102))
    || (decide (65 ≤ c.toNat) && decide (c.toNat ≤ 70))

/-- Numeric value of an ASCII hex digit. -/
def hexDigitVal (c : Char) : Nat :=
  if c.isDigit then c.toNat - 48
  else if 97 ≤ c.toNat then c.toNat - 87
  else c.toNat - 55

/-- `primitive.ObjectIDFromHex`: parses a 24-character hex string, failing on
any other input. -/
def objectIDFromHex (s : String) : Option ObjectID :=
  if s.length = 24 ∧ s.data.all isHexDigitChar then
    some (s.data.foldl (fun acc c => 16 * acc + hexDigitVal c) 0)
  else none

/-- Hex digit character for a value below 16 (lowercase, as `ObjectID.Hex`). -/
def hexCharOfNat (n : Nat) : Char :=
  if n < 10 then Char.ofNat (48 + n) else Char.ofNat (87 + n)

/-- `primitive.ObjectID.Hex`: the 24-character lowercase hex encoding. -/
def objectIDHex (id : ObjectID) : String :=
  String.mk ((List.range 24).map (fun i => hexCharOfNat (id / 16 ^ (23 - i) % 16)))

/-- `domain.TaskStatus` is a string type in the source. -/
abbrev TaskStatus := String

def TaskStatusPending : TaskStatus := "pending"

def TaskStatusInProgress : TaskStatus := "in_progress"

def TaskStatusCompleted : TaskStatus := "completed"

/-- The Go error values returned by the core: the sentinel errors declared in
`internal/domain/errors.go` plus ad-hoc `errors.New` messages. -/
inductive Err where
  | notFound
  | invalidInput
  | unauthorized
  | duplicateKey
  | internalServer
  | msg (s : String)
deriving DecidableEq, Repr

instance {ε α : Type} [DecidableEq ε] [DecidableEq α] :
    DecidableEq (Except ε α) := fun x y =>
  match x, y with
  | .ok a, .ok b =>
    if h : a = b then .isTrue (by rw [h]) else .isFalse (fun hc => h (Except.ok.inj hc))
  | .error a, .error b =>
    if h : a = b then .isTrue (by rw [h]) else .isFalse (fun hc => h (Except.error.inj hc))
  | .ok _, .error _ => .isFalse (fun hc => Except.noConfusion hc)
  | .error _, .ok _ => .isFalse (fun hc => Except.noConfusion hc)

/-- `domain.Task`. -/
structure Task where
  id : ObjectID
  title : String
  description : String
  status : TaskStatus
  priority : Int
  dueDate : Int
  assignedTo : ObjectID
  createdBy : ObjectID
  createdAt : Int
  updatedAt : Int
deriving DecidableEq, Repr

/-- `domain.User`. -/
structure User where
  id : ObjectID
  username : String
  email : String
  password : String
  firstName : String
  lastName : String
  createdAt : Int
  updatedAt : Int
deriving DecidableEq, Repr

/-- The MongoDB collections backing the task and user repositories. -/
structure Store where
  tasks : List Task
  users : List User
deriving DecidableEq, Repr

/-- `taskRepository.FindByID`: `FindOne` on `_id`, absent key mapped to
`domain.ErrNotFound`. -/
def Store.findTaskByID (s : Store) (id : ObjectID) : Except Err Task :=
  match s.tasks.find? (fun t => t.id == id) with
  | some t => .ok t
  | none => .error .notFound

/-- `userRepository.FindByID`. -/
def Store.findUserByID (s : Store) (id : ObjectID) : Except Err User :=
  match s.users.find? (fun u => u.id == id) with
  | some u => .ok u
  | none => .error .notFound

/-- `userRepository.FindByEmail`. -/
def Store.findUserByEmail (s : Store) (email : String) : Except Err User :=
  match s.users.find? (fun u => u.email == email) with
  | some u => .ok u
  | none => .error .notFound

/-- `userRepository.FindByUsername`. -/
def Store.findUserByUsername (s : Store) (username : String) : Except Err User :=
  match s.users.find? (fun u => u.username == username) with
  | some u => .ok u
  | none => .error .notFound

/-- `primitive.NewObjectID` assignment in the repositories: a fresh id is
drawn only when the document's id is zero. -/
def assignFreshTaskId (t : Task) (freshId : ObjectID) : Task :=
  if t.id = 0 then { t with id := freshId } else t

/-- The pending default applied by `taskRepository.Create` to an empty status. -/
def defaultStatusPending (t : Task) : Task :=
  if t.status = "" then { t with status := TaskStatusPending } else t

/-- The document `taskRepository.Create` inserts: creation timestamps set,
fresh id when zero, empty status defaulted to pending. -/
def newTaskDoc (t : Task) (freshId : ObjectID) (now : Int) : Task :=
  defaultStatusPending (assignFreshTaskId { t with createdAt := now, updatedAt := now } freshId)

/-- `taskRepository.Create`: sets created/updated times, assigns a fresh
ObjectID when the id is zero, defaults an empty status to pending, and
inserts the document. The fresh id drawn by `primitive.NewObjectID` is a
parameter. -/
def Store.createTask (s : Store) (t : Task) (freshId : ObjectID) (now : Int) :
    Except Err (Task × Store) :=
  .ok (newTaskDoc t freshId now, { s with tasks := s.tasks ++ [newTaskDoc t freshId now] })

/-- The `$set` document of `taskRepository.Update`: title, description,
status, priority, due date, assignee and updated time are written; the
stored `created_by` and `created_at` fields are not. -/
def setTaskFields (old t : Task) (now : Int) : Task :=
  { old with
    title := t.title
    description := t.description
    status := t.status
    priority := t.priority
    dueDate := t.dueDate
    assignedTo := t.assignedTo
    updatedAt := now }

/-- `taskRepository.Update`: `UpdateOne` on `_id` applying the `$set` above;
`MatchedCount == 0` is mapped to `domain.ErrNotFound`. -/
def Store.updateTaskRepo (s : Store) (t : Task) (now : Int) : Except Err Store :=
  if s.tasks.any (fun x => x.id == t.id) then
    .ok { s with tasks := s.tasks.map (fun x => if x.id == t.id then setTaskFields x t now else x) }
  else .error .notFound

/-- `taskRepository.Delete`: `DeleteOne` on `_id`; `DeletedCount == 0` is
mapped to `domain.ErrNotFound`. -/
def Store.deleteTaskRepo (s : Store) (id : ObjectID) : Except Err Store :=
  if s.tasks.any (fun x => x.id == id) then
    .ok { s with tasks := s.tasks.filter (fun x => !(x.id == id)) }
  else .error .notFound

/-- The document `userRepository.Create` inserts: creation timestamps set and
a fresh id assigned when the id is zero. -/
def newUserDoc (u : User) (freshId : ObjectID) (now : Int) : User :=
  if u.id = 0 then { u with createdAt := now, updatedAt := now, id := freshId }
  else { u with createdAt := now, updatedAt := now }

/-- `userRepository.Create`: pre-checks email and username for duplicates
(returning `domain.ErrDuplicateKey`), sets timestamps, assigns a fresh id
when zero, and inserts. -/
def Store.createUser (s : Store) (u : User) (freshId : ObjectID) (now : Int) :
    Except Err (User × Store) :=
  match s.findUserByEmail u.email with
  | .ok _ => .error .duplicateKey
  | .error _ =>
  match s.findUserByUsername u.username with
  | .ok _ => .error .duplicateKey
  | .error _ =>
    .ok (newUserDoc u freshId now, { s with users := s.users ++ [newUserDoc u freshId now] })

/-- Character class `[a-zA-Z0-9._%+\-]` of the email regex's local part. -/
def isLocalChar (c : Char) : Bool :=
  c.isAlphanum || c == '.' || c == '_' || c == '%' || c == '+' || c == '-'

/-- Character class `[a-zA-Z0-9.\-]` of the email regex's domain part. -/
def isDomainChar (c : Char) : Bool :=
  c.isAlphanum || c == '.' || c == '-'

/-- Whether a character list matches the regex fragment
`[a-zA-Z0-9.\-]+\.[a-zA-Z]{2,}` exactly (anchored both sides): some dot
splits it into a nonempty domain-class prefix and an all-alphabetic suffix
of length at least two. -/
def domainMatches (d : List Char) : Bool :=
  (List.range d.length).any (fun i =>
    d.get? i == some '.' && decide (1 ≤ i) && (d.take i).all isDomainChar &&
      decide (2 ≤ (d.drop (i + 1)).length) && (d.drop (i + 1)).all Char.isAlpha)

/-- Splits a character list at every at sign (the pieces between at signs,
in order; a list with no at sign yields one piece). -/
def splitAtSign : List Char → List (List Char)
  | [] => [[]]
  | c :: rest =>
    match splitAtSign rest with
    | [] => [[c]]
    | p :: ps => if c = '@' then [] :: p :: ps else (c :: p) :: ps

/-- `isValidEmail`: whether the whole string matches
`^[a-zA-Z0-9._%+\-]+@[a-zA-Z0-9.\-]+\.[a-zA-Z]{2,}$`. Neither character
class contains the at sign, so a match splits the string at its unique
at sign. -/
def isValidEmail (s : String) : Bool :=
  match splitAtSign s.data with
  | [lp, dp] => !lp.isEmpty && lp.all isLocalChar && domainMatches dp
  | _ => false

/-- Modelled from the spec: the one-way adaptive password hash of
`hashPassword` (the bcrypt library is not part of this repository). The
spec requires that verification succeed exactly for the original
plaintext, so the hash is modelled as an injective tagging of the
plaintext; the internal-failure path never fires in the model. -/
def hashPassword (password : String) : Except Err String :=
  .ok ("$2a$10$" ++ password)

/-- Modelled from the spec: `verifyPassword` compares a plaintext against a
stored hash, returning false (never an error) on mismatch. -/
def verifyPassword (hashedPassword password : String) : Bool :=
  hashedPassword == "$2a$10$" ++ password

/-- `usecase.RegisterUserInput`. -/
structure RegisterUserInput where
  username : String
  email : String
  password : String
  firstName : String
  lastName : String
deriving DecidableEq, Repr

/-- `usecase.validateUserInput`: username at least 3 characters, valid email,
password at least 6 characters. -/
def validateUserInput (input : RegisterUserInput) : Except Err Unit :=
  if input.username.length < 3 then
    .error (.msg "username must be at least 3 characters long")
  else if !isValidEmail input.email then
    .error (.msg "invalid email format")
  else if input.password.length < 6 then
    .error (.msg "password must be at least 6 characters long")
  else .ok ()

/-- `UserUseCase.RegisterUser`: validates input, pre-checks email and
username uniqueness, hashes the password and stores the user. -/
def RegisterUser (s : Store) (input : RegisterUserInput) (freshId : ObjectID) (now : Int) :
    Except Err User × Store :=
  match validateUserInput input with
  | .error e => (.error e, s)
  | .ok _ =>
  match s.findUserByEmail input.email with
  | .ok _ => (.error (.msg "email already registered"), s)
  | .error _ =>
  match s.findUserByUsername input.username with
  | .ok _ => (.error (.msg "username already taken"), s)
  | .error _ =>
  match hashPassword input.password with
  | .error e => (.error e, s)
  | .ok hashedPassword =>
    match s.createUser
        { id := 0, username := input.username, email := input.email,
          password := hashedPassword, firstName := input.firstName,
          lastName := input.lastName, createdAt := 0, updatedAt := 0 } freshId now with
    | .error e => (.error e, s)
    | .ok us => (.ok us.1, us.2)

/-- `UserUseCase.ValidateCredentials`: resolves the login as an email when it
matches email syntax, otherwise as a username; a missing user and a failed
password check both produce the generic invalid-credentials error. -/
def ValidateCredentials (s : Store) (login password : String) : Except Err User :=
  match (if isValidEmail login then s.findUserByEmail login else s.findUserByUsername login) with
  | .error e =>
    if e = .notFound then .error (.msg "invalid login credentials") else .error e
  | .ok user =>
    if !verifyPassword user.password password then
      .error (.msg "invalid login credentials")
    else .ok user

/-- `usecase.CreateTaskInput`. -/
structure CreateTaskInput where
  title : String
  description : String
  priority : Int
  dueDate : Int
  createdBy : String
deriving DecidableEq, Repr

/-- `TaskUseCase.CreateTask`. -/
def CreateTask (s : Store) (input : CreateTaskInput) (freshId : ObjectID) (now : Int) :
    Except Err Task × Store :=
  if input.title = "" then (.error .invalidInput, s)
  else if input.priority < 1 ∨ input.priority > 5 then
    (.error (.msg "priority must be between 1 and 5"), s)
  else match objectIDFromHex input.createdBy with
  | none => (.error (.msg "invalid creator ID format"), s)
  | some creatorID =>
  match s.findUserByID creatorID with
  | .error e =>
    if e = .notFound then (.error (.msg "creator user not found"), s) else (.error e, s)
  | .ok _ =>
    match s.createTask
        { id := 0, title := input.title, description := input.description,
          status := TaskStatusPending, priority := input.priority,
          dueDate := input.dueDate, assignedTo := 0, createdBy := creatorID,
          createdAt := 0, updatedAt := 0 } freshId now with
    | .error e => (.error e, s)
    | .ok ts => (.ok ts.1, ts.2)

/-- `usecase.UpdateTaskInput`. -/
structure UpdateTaskInput where
  id : String
  title : String
  description : String
  status : TaskStatus
  priority : Int
  dueDate : Int
  updatedBy : String
deriving DecidableEq, Repr

/-- `usecase.isValidStatusTransition`. -/
def isValidStatusTransition (current new : TaskStatus) : Bool :=
  if current == TaskStatusPending then
    new == TaskStatusInProgress || new == TaskStatusCompleted
  else if current == TaskStatusInProgress then
    new == TaskStatusCompleted
  else if current == TaskStatusCompleted then
    new == TaskStatusInProgress
  else false

/-- The title partial update of `UpdateTask` (empty string means unchanged). -/
def applyTitleUpd (task : Task) (input : UpdateTaskInput) : Task :=
  if input.title ≠ "" then { task with title := input.title } else task

/-- The description partial update of `UpdateTask`. -/
def applyDescriptionUpd (task : Task) (input : UpdateTaskInput) : Task :=
  if input.description ≠ "" then { task with description := input.description } else task

/-- The status partial update of `UpdateTask` (applied only after the
transition check has passed). -/
def applyStatusUpd (task : Task) (input : UpdateTaskInput) : Task :=
  if input.status ≠ "" then { task with status := input.status } else task

/-- The priority partial update of `UpdateTask` (zero means unchanged). -/
def applyPriorityUpd (task : Task) (input : UpdateTaskInput) : Task :=
  if input.priority ≠ 0 then { task with priority := input.priority } else task

/-- The due-date partial update of `UpdateTask` (zero time means unchanged). -/
def applyDueDateUpd (task : Task) (input : UpdateTaskInput) : Task :=
  if ¬input.dueDate = 0 then { task with dueDate := input.dueDate } else task

/-- The task after all five partial updates of `UpdateTask`, in source order. -/
def applyAllUpds (task : Task) (input : UpdateTaskInput) : Task :=
  applyDueDateUpd (applyPriorityUpd (applyStatusUpd
    (applyDescriptionUpd (applyTitleUpd task input) input) input) input) input

/-- `TaskUseCase.UpdateTask`: loads the task, validates a provided priority,
authorizes the updater as creator or assignee, applies partial updates
(empty string / zero value means unchanged), validates a provided status
against the transition table, and writes through the repository. -/
def UpdateTask (s : Store) (input : UpdateTaskInput) (now : Int) :
    Except Err Task × Store :=
  match objectIDFromHex input.id with
  | none => (.error (.msg "invalid task ID format"), s)
  | some taskID =>
  match s.findTaskByID taskID with
  | .error e => (.error e, s)
  | .ok task =>
  if input.priority ≠ 0 ∧ (input.priority < 1 ∨ input.priority > 5) then
    (.error (.msg "priority must be between 1 and 5"), s)
  else match objectIDFromHex input.updatedBy with
  | none => (.error (.msg "invalid updater ID format"), s)
  | some updaterID =>
  if ¬task.createdBy = updaterID ∧ ¬task.assignedTo = updaterID then
    (.error .unauthorized, s)
  else if input.status ≠ "" ∧
      ¬isValidStatusTransition
        (applyDescriptionUpd (applyTitleUpd task input) input).status input.status = true then
    (.error (.msg "invalid status transition"), s)
  else
    match s.updateTaskRepo (applyAllUpds task input) now with
    | .error e => (.error e, s)
    | .ok s2 => (.ok { applyAllUpds task input with updatedAt := now }, s2)

/-- `TaskUseCase.DeleteTask`: only the creator may delete. -/
def DeleteTask (s : Store) (id userID : String) : Except Err Unit × Store :=
  match objectIDFromHex id with
  | none => (.error (.msg "invalid task ID format"), s)
  | some taskID =>
  match objectIDFromHex userID with
  | none => (.error (.msg "invalid user ID format"), s)
  | some userObjID =>
  match s.findTaskByID taskID with
  | .error e => (.error e, s)
  | .ok task =>
  if ¬task.createdBy = userObjID then (.error .unauthorized, s)
  else match s.deleteTaskRepo taskID with
  | .error e => (.error e, s)
  | .ok s2 => (.ok (), s2)

/-- `usecase.AssignTaskInput`. -/
structure AssignTaskInput where
  taskID : String
  assigneeID : String
  assignedBy : String
deriving DecidableEq, Repr

/-- The status side effect of `AssignTask`: a pending task moves to in
progress, any other status is kept. -/
def advanceIfPending (t : Task) : Task :=
  if t.status = TaskStatusPending then { t with status := TaskStatusInProgress } else t

/-- `TaskUseCase.AssignTask`: only the creator may assign; the assignee must
exist; a pending task is advanced to in progress. -/
def AssignTask (s : Store) (input : AssignTaskInput) (now : Int) :
    Except Err Task × Store :=
  match objectIDFromHex input.taskID with
  | none => (.error (.msg "invalid task ID format"), s)
  | some taskID =>
  match objectIDFromHex input.assigneeID with
  | none => (.error (.msg "invalid assignee ID format"), s)
  | some assigneeID =>
  match objectIDFromHex input.assignedBy with
  | none => (.error (.msg "invalid assigner ID format"), s)
  | some assignerID =>
  match s.findTaskByID taskID with
  | .error e => (.error e, s)
  | .ok task =>
  if ¬task.createdBy = assignerID then (.error .unauthorized, s)
  else match s.findUserByID assigneeID with
  | .error e =>
    if e = .notFound then (.error (.msg "assignee user not found"), s) else (.error e, s)
  | .ok _ =>
    match s.updateTaskRepo (advanceIfPending { task with assignedTo := assigneeID }) now with
    | .error e => (.error e, s)
    | .ok s2 => (.ok { advanceIfPending { task with assignedTo := assigneeID } with updatedAt := now }, s2)

/-- The signing method recorded in a JWT header, as classified by the jwt/v4
library: the HMAC family (HS256/384/512) versus the asymmetric families. -/
inductive SigningMethod where
  | hmac (name : String)
  | rsa (name : String)
  | ecdsa (name : String)
  | unsigned
deriving DecidableEq, Repr

def SigningMethod.isHMAC : SigningMethod → Bool
  | .hmac _ => true
  | _ => false

/-- `usecase.Claims`: the custom user id/username claims plus the registered
time claims, with times as integer unix seconds. -/
structure Claims where
  userID : String
  username : String
  expiresAt : Int
  issuedAt : Int
  notBefore : Int
deriving DecidableEq, Repr

/-- Modelled from the spec: a signed token as handled by the external
github.com/golang-jwt/jwt/v4 library (not part of this repository).
Signature validity is modelled by recording the secret the token was
signed with: verification succeeds exactly when the verifying secret
matches. -/
structure Token where
  method : SigningMethod
  claims : Claims
  signedWith : String
deriving DecidableEq, Repr

/-- `AuthUseCase.generateJWT`: a fresh HS256 token with issued-at and
not-before now and expiry now + configured ttl, signed with the
configured secret; returns the token and its expiry. -/
def generateJWT (jwtSecret : String) (jwtExpiry : Int) (user : User) (now : Int) :
    Token × Int :=
  ({ method := .hmac "HS256",
     claims :=
       { userID := objectIDHex user.id, username := user.username,
         expiresAt := now + jwtExpiry, issuedAt := now, notBefore := now },
     signedWith := jwtSecret }, now + jwtExpiry)

/-- `AuthUseCase.ValidateToken`. The key function's signing-method check is
the one in the source; the remaining checks are the jwt/v4 library's parse,
signature and registered-claims validation, modelled from the spec (the
library is not part of this repository): a wrong signature, an expiry not
after now, an issued-at after now or a not-before after now all fail. -/
def ValidateToken (jwtSecret : String) (tok : Token) (now : Int) : Except Err String :=
  if ¬tok.method.isHMAC = true then .error (.msg "unexpected signing method")
  else if ¬tok.signedWith = jwtSecret then .error (.msg "signature is invalid")
  else if ¬now < tok.claims.expiresAt then .error (.msg "token is expired")
  else if now < tok.claims.issuedAt then .error (.msg "token used before issued")
  else if now < tok.claims.notBefore then .error (.msg "token is not valid yet")
  else .ok tok.claims.userID

/-- Whether an `Except` result is a success. -/
def isOkE {α : Type} : Except Err α → Bool
  | .ok _ => true
  | .error _ => false

/-- Whether an `Except` result is an error. -/
def isErrE {α : Type} : Except Err α → Bool
  | .ok _ => false
  | .error _ => true

/-- A store-mutating task operation other than creation or deletion: the two
operations quantified over by the created-by immutability claim. -/
inductive TaskOp where
  | update (input : UpdateTaskInput) (now : Int)
  | assign (input : AssignTaskInput) (now : Int)
deriving DecidableEq, Repr

/-- The store after running one task operation. -/
def applyOp (s : Store) : TaskOp → Store
  | .update input now => (UpdateTask s input now).2
  | .assign input now => (AssignTask s input now).2

/-- The store after running a sequence of task operations. -/
def applyOps (s : Store) (ops : List TaskOp) : Store := ops.foldl applyOp s

/-! Concrete fixtures used by witnesses: two users and one task created by
the first user, with the hex forms of their ids. -/

def hexA : String := "000000000000000000000001"

def hexB : String := "000000000000000000000002"

def hexC : String := "000000000000000000000003"

def hexT : String := "00000000000000000000000a"

def aliceU : User :=
  { id := 1, username := "alice", email := "alice@x.com",
    password := "$2a$10$secret1", firstName := "", lastName := "",
    createdAt := 0, updatedAt := 0 }

def bobU : User :=
  { id := 2, username := "bob", email := "bob@x.com",
    password := "$2a$10$secret2", firstName := "", lastName := "",
    createdAt := 0, updatedAt := 0 }

def wTask : Task :=
  { id := 10, title := "T", description := "", status := TaskStatusPending,
    priority := 3, dueDate := 0, assignedTo := 0, createdBy := 1,
    createdAt := 0, updatedAt := 0 }

def wStore : Store := { tasks := [wTask], users := [aliceU, bobU] }

/-! Helper lemmas about the repository layer. -/

theorem findTaskByID_ok_iff {s : Store} {tid : ObjectID} {t : Task} :
    s.findTaskByID tid = .ok t ↔ s.tasks.find? (fun x => x.id == tid) = some t := by
  unfold Store.findTaskByID
  cases s.tasks.find? (fun x => x.id == tid) <;> simp

theorem findUserByEmail_error_notFound {s : Store} {k : String} {e : Err}
    (h : s.findUserByEmail k = .error e) : e = .notFound := by
  unfold Store.findUserByEmail at h
  cases hf : s.users.find? (fun u => u.email == k) <;> rw [hf] at h
  · exact (Except.error.inj h).symm
  · exact absurd h (by simp)

theorem findUserByUsername_error_notFound {s : Store} {k : String} {e : Err}
    (h : s.findUserByUsername k = .error e) : e = .notFound := by
  unfold Store.findUserByUsername at h
  cases hf : s.users.find? (fun u => u.username == k) <;> rw [hf] at h
  · exact (Except.error.inj h).symm
  · exact absurd h (by simp)

theorem setTaskFields_id (old t : Task) (now : Int) : (setTaskFields old t now).id = old.id := rfl

theorem setTaskFields_createdBy (old t : Task) (now : Int) :
    (setTaskFields old t now).createdBy = old.createdBy := rfl

theorem updateTaskRepo_ok_tasks {s : Store} {t : Task} {now : Int} {s2 : Store}
    (h : s.updateTaskRepo t now = .ok s2) :
    s2.tasks = s.tasks.map (fun x => if x.id == t.id then setTaskFields x t now else x) := by
  unfold Store.updateTaskRepo at h
  split at h
  · exact (Except.ok.inj h).symm ▸ rfl
  · exact absurd h (by simp)

theorem findTask_after_updateRepo {s : Store} {t : Task} {now : Int} {s2 : Store}
    {tid : ObjectID} {u : Task}
    (h : s.updateTaskRepo t now = .ok s2)
    (hu : s.tasks.find? (fun x => x.id == tid) = some u) :
    s2.tasks.find? (fun x => x.id == tid) =
      some (if u.id == t.id then setTaskFields u t now else u) := by
  have htasks := updateTaskRepo_ok_tasks h
  rw [htasks]
  have hid : ∀ x : Task,
      ((if x.id == t.id then setTaskFields x t now else x).id == tid) = (x.id == tid) := by
    intro x
    split <;> rfl
  rw [List.find?_map]
  have hcomp :
      ((fun x : Task => x.id == tid) ∘ fun x => if x.id == t.id then setTaskFields x t now else x)
        = fun x : Task => x.id == tid := by
    funext x
    exact hid x
  rw [hcomp, hu]
  rfl

/-- Every path through `UpdateTask` either leaves the store untouched or
returns a success. -/
theorem updateTask_store_cases (s : Store) (input : UpdateTaskInput) (now : Int) :
    (UpdateTask s input now).2 = s ∨ isOkE (UpdateTask s input now).1 = true := by
  unfold UpdateTask
  split
  · exact Or.inl rfl
  · split
    · exact Or.inl rfl
    · split
      · exact Or.inl rfl
      · split
        · exact Or.inl rfl
        · split
          · exact Or.inl rfl
          · split
            · exact Or.inl rfl
            · split
              · exact Or.inl rfl
              · exact Or.inr rfl

/-- Claim C10: whenever `UpdateTask` returns an error (invalid id format,
task not found, priority out of range, unauthorized updater, invalid status
transition, or a failed write), the store is exactly as it was before the
call: the repository write only happens after every check has passed. -/
theorem c10_updateTask_error_leaves_store_unchanged
    (s : Store) (input : UpdateTaskInput) (now : Int) (e : Err)
    (h : (UpdateTask s input now).1 = .error e) :
    (UpdateTask s input now).2 = s := by
  rcases updateTask_store_cases s input now with h2 | hok
  · exact h2
  · rw [h] at hok
    exact absurd hok (by simp [isErrE, isOkE])

/-- Witness for C10: an unauthorized concrete update errors and leaves the
concrete store unchanged. -/
theorem c10_witness :
    (UpdateTask wStore
      { id := hexT, title := "", description := "", status := "",
        priority := 0, dueDate := 0, updatedBy := hexC } 5).2 = wStore :=
  c10_updateTask_error_leaves_store_unchanged wStore
    { id := hexT, title := "", description := "", status := "",
      priority := 0, dueDate := 0, updatedBy := hexC } 5 .unauthorized (by decide)

/-- Claim C2: for an existing task, `UpdateTask` by an updater id equal to
neither the task's created-by nor its assigned-to id fails with the
unauthorized error (and leaves the store unchanged); this includes tasks
whose assigned-to field is still the zero ObjectID because no assignment
ever happened. -/
theorem c2_updateTask_unauthorized_for_stranger
    (s : Store) (input : UpdateTaskInput) (now : Int) (tid uid : ObjectID) (task : Task)
    (hid : objectIDFromHex input.id = some tid)
    (hfind : s.findTaskByID tid = .ok task)
    (hprio : input.priority = 0 ∨ (1 ≤ input.priority ∧ input.priority ≤ 5))
    (hupd : objectIDFromHex input.updatedBy = some uid)
    (hcb : ¬task.createdBy = uid) (hat : ¬task.assignedTo = uid) :
    UpdateTask s input now = (.error .unauthorized, s) := by
  have hp : ¬(input.priority ≠ 0 ∧ (input.priority < 1 ∨ input.priority > 5)) := by
    rcases hprio with h0 | ⟨h1, h5⟩
    · exact fun hc => hc.1 h0
    · rintro ⟨-, h | h⟩ <;> omega
  unfold UpdateTask
  simp only [hid, hfind]
  rw [if_neg hp]
  simp only [hupd]
  rw [if_pos ⟨hcb, hat⟩]

/-- Witness for C2: bob's id is neither creator nor assignee of the concrete
task (whose assigned-to was never set), so his update is rejected. -/
theorem c2_witness :
    UpdateTask wStore
      { id := hexT, title := "x", description := "", status := "",
        priority := 0, dueDate := 0, updatedBy := hexB } 5 = (.error .unauthorized, wStore) :=
  c2_updateTask_unauthorized_for_stranger wStore
    { id := hexT, title := "x", description := "", status := "",
      priority := 0, dueDate := 0, updatedBy := hexB } 5 10 2 wTask
    (by decide) (by decide) (Or.inl rfl) (by decide) (by decide) (by decide)

/-- Claim C7: every failure of `ValidateCredentials` — user not found under
the resolved login, or password mismatch — carries one and the same generic
invalid-credentials error value, so callers cannot tell which check failed. -/
theorem c7_validateCredentials_single_generic_error
    (s : Store) (login password : String) (e : Err)
    (h : ValidateCredentials s login password = .error e) :
    e = Err.msg "invalid login credentials" := by
  unfold ValidateCredentials at h
  cases hf : (if isValidEmail login then s.findUserByEmail login else s.findUserByUsername login) with
  | error e2 =>
    rw [hf] at h
    have he2 : e2 = .notFound := by
      by_cases hv : isValidEmail login
      · exact findUserByEmail_error_notFound (by rwa [if_pos hv] at hf)
      · exact findUserByUsername_error_notFound (by rwa [if_neg hv] at hf)
    subst he2
    simp at h
    exact h.symm
  | ok user =>
    rw [hf] at h
    by_cases hv : verifyPassword user.password password
    · simp [hv] at h
    · simp [hv] at h
      exact h.symm

theorem applyTitleUpd_status (t : Task) (i : UpdateTaskInput) :
    (applyTitleUpd t i).status = t.status := by
  unfold applyTitleUpd
  split <;> rfl

theorem applyDescriptionUpd_status (t : Task) (i : UpdateTaskInput) :
    (applyDescriptionUpd t i).status = t.status := by
  unfold applyDescriptionUpd
  split <;> rfl

theorem findTaskByID_ok_facts {s : Store} {tid : ObjectID} {task : Task}
    (h : s.findTaskByID tid = .ok task) :
    s.tasks.find? (fun x => x.id == tid) = some task ∧ task.id = tid ∧
      s.tasks.any (fun x => x.id == tid) = true := by
  have hf := findTaskByID_ok_iff.mp h
  have hmem := List.mem_of_find?_eq_some hf
  have hpred := List.find?_some hf
  exact ⟨hf, by simpa using hpred, List.any_eq_true.mpr ⟨task, hmem, hpred⟩⟩

/-- Claim C4 counterexample: `UpdateTask` invoked with priority 0 on an
otherwise valid request is not rejected — zero means "priority not
provided" — refuting the claim that every priority outside `[1,5]`,
including 0, is rejected by `UpdateTask`. -/
theorem c4_counterexample :
    isOkE (UpdateTask wStore
      { id := hexT, title := "", description := "", status := "",
        priority := 0, dueDate := 0, updatedBy := hexA } 5).1 = true := by
  decide

/-- Claim C4 (amended): every priority outside `[1,5]` (including 0 and
negatives) is rejected by `CreateTask`; `UpdateTask` rejects every nonzero
priority outside `[1,5]`, and treats 0 as "not provided". -/
theorem c4_priority_validation
    (s : Store) (ci : CreateTaskInput) (ui : UpdateTaskInput)
    (freshId : ObjectID) (now now2 : Int) (tid : ObjectID) (task : Task)
    (hid : objectIDFromHex ui.id = some tid)
    (hfind : s.findTaskByID tid = .ok task) :
    (ci.title ≠ "" → ci.priority < 1 ∨ ci.priority > 5 →
      CreateTask s ci freshId now = (.error (.msg "priority must be between 1 and 5"), s))
    ∧ (ui.priority ≠ 0 → ui.priority < 1 ∨ ui.priority > 5 →
      UpdateTask s ui now2 = (.error (.msg "priority must be between 1 and 5"), s)) := by
  constructor
  · intro ht hp
    unfold CreateTask
    rw [if_neg ht, if_pos hp]
  · intro hnz hp
    unfold UpdateTask
    simp only [hid, hfind]
    rw [if_pos ⟨hnz, hp⟩]

/-- Witness for C4 (amended): priority 0 is rejected by `CreateTask` and
priority 7 is rejected by `UpdateTask`. -/
theorem c4_witness :
    CreateTask wStore
      { title := "T", description := "", priority := 0, dueDate := 0, createdBy := hexA } 11 5
      = (.error (.msg "priority must be between 1 and 5"), wStore)
    ∧ UpdateTask wStore
      { id := hexT, title := "", description := "", status := "",
        priority := 7, dueDate := 0, updatedBy := hexA } 5
      = (.error (.msg "priority must be between 1 and 5"), wStore) := by
  have main := c4_priority_validation wStore
    { title := "T", description := "", priority := 0, dueDate := 0, createdBy := hexA }
    { id := hexT, title := "", description := "", status := "",
      priority := 7, dueDate := 0, updatedBy := hexA }
    11 5 5 10 wTask (by decide) (by decide)
  exact ⟨main.1 (by decide) (by decide), main.2 (by decide) (by decide)⟩

/-- Claim C8: `ValidateToken` fails (returning no user id) on every token
whose expiry is in the past and on every token signed with a non-HMAC
method; a token issued with ttl 0 fails validation one second after
issuance. -/
theorem c8_validateToken_rejections
    (secret : String) (tok : Token) (now : Int) (user : User) (t0 : Int) :
    (tok.claims.expiresAt < now → isErrE (ValidateToken secret tok now) = true)
    ∧ (tok.method.isHMAC = false → isErrE (ValidateToken secret tok now) = true)
    ∧ isErrE (ValidateToken secret (generateJWT secret 0 user t0).1 (t0 + 1)) = true := by
  refine ⟨?_, ?_, ?_⟩
  · intro hexp
    unfold ValidateToken
    split
    · rfl
    · split
      · rfl
      · rw [if_pos (by omega)]
        rfl
  · intro hm
    unfold ValidateToken
    rw [if_pos (by simp [hm])]
    rfl
  · have hc : ¬ (t0 + 1 < t0 + 0) := by omega
    simp [ValidateToken, generateJWT, isErrE, SigningMethod.isHMAC, hc]

/-- Witness for C8: a concrete expired token, a concrete RSA-signed token,
and a concrete ttl-0 token checked one second later all fail. -/
theorem c8_witness :
    isErrE (ValidateToken "sec"
      { method := .hmac "HS256",
        claims := { userID := "u", username := "alice", expiresAt := 0, issuedAt := 0, notBefore := 0 },
        signedWith := "sec" } 5) = true
    ∧ isErrE (ValidateToken "sec"
      { method := .rsa "RS256",
        claims := { userID := "u", username := "alice", expiresAt := 99, issuedAt := 0, notBefore := 0 },
        signedWith := "sec" } 5) = true
    ∧ isErrE (ValidateToken "sec" (generateJWT "sec" 0 aliceU 100).1 (100 + 1)) = true := by
  have h1 := c8_validateToken_rejections "sec"
    { method := .hmac "HS256",
      claims := { userID := "u", username := "alice", expiresAt := 0, issuedAt := 0, notBefore := 0 },
      signedWith := "sec" } 5 aliceU 100
  have h2 := c8_validateToken_rejections "sec"
    { method := .rsa "RS256",
      claims := { userID := "u", username := "alice", expiresAt := 99, issuedAt := 0, notBefore := 0 },
      signedWith := "sec" } 5 aliceU 100
  exact ⟨h1.1 (by decide), h2.2.1 (by decide), h1.2.2⟩

/-- Claim C1: a requested status change in `UpdateTask` succeeds only when
the (current, requested) pair is in the transition table
pending→in_progress, pending→completed, in_progress→completed,
completed→in_progress; every other pair (same-state pairs and
completed→pending included) is rejected — with the invalid-transition
error once the earlier validations pass — and the store is left
unchanged. -/
theorem c1_update_status_transition_table
    (s : Store) (input : UpdateTaskInput) (now : Int) (tid : ObjectID) (task : Task)
    (hid : objectIDFromHex input.id = some tid)
    (hfind : s.findTaskByID tid = .ok task)
    (hstat : input.status ≠ "") :
    (isValidStatusTransition task.status input.status = true ↔
      ((task.status, input.status) = (TaskStatusPending, TaskStatusInProgress) ∨
       (task.status, input.status) = (TaskStatusPending, TaskStatusCompleted) ∨
       (task.status, input.status) = (TaskStatusInProgress, TaskStatusCompleted) ∨
       (task.status, input.status) = (TaskStatusCompleted, TaskStatusInProgress)))
    ∧ (isValidStatusTransition task.status input.status = false →
        isErrE (UpdateTask s input now).1 = true ∧ (UpdateTask s input now).2 = s)
    ∧ (isValidStatusTransition task.status input.status = false →
        (input.priority = 0 ∨ (1 ≤ input.priority ∧ input.priority ≤ 5)) →
        (∀ uid : ObjectID, objectIDFromHex input.updatedBy = some uid →
          (task.createdBy = uid ∨ task.assignedTo = uid) →
          UpdateTask s input now = (.error (.msg "invalid status transition"), s))) := by
  have hstatus2 :
      (applyDescriptionUpd (applyTitleUpd task input) input).status = task.status := by
    rw [applyDescriptionUpd_status, applyTitleUpd_status]
  refine ⟨?_, ?_, ?_⟩
  · unfold isValidStatusTransition
    unfold TaskStatusPending TaskStatusInProgress TaskStatusCompleted
    split_ifs with h1 h2 h3 <;> simp_all [Prod.ext_iff]
  · intro htrans
    have herr : isErrE (UpdateTask s input now).1 = true := by
      unfold UpdateTask
      simp only [hid, hfind]
      by_cases hp : (input.priority ≠ 0 ∧ (input.priority < 1 ∨ input.priority > 5))
      · rw [if_pos hp]
        rfl
      · rw [if_neg hp]
        split
        · rfl
        · rename_i uid hu
          by_cases ha : (¬task.createdBy = uid ∧ ¬task.assignedTo = uid)
          · rw [if_pos ha]
            rfl
          · rw [if_neg ha, if_pos ⟨hstat, by rw [hstatus2, htrans]; simp⟩]
            rfl
    refine ⟨herr, ?_⟩
    rcases updateTask_store_cases s input now with h2 | hok
    · exact h2
    · cases hr : (UpdateTask s input now).1 with
      | ok a => rw [hr] at herr; exact absurd herr (by simp [isErrE])
      | error e => rw [hr] at hok; exact absurd hok (by simp [isOkE])
  · intro htrans hprio uid hupd hauth
    have hp : ¬(input.priority ≠ 0 ∧ (input.priority < 1 ∨ input.priority > 5)) := by
      rcases hprio with h0 | ⟨h1, h5⟩
      · exact fun hc => hc.1 h0
      · rintro ⟨-, h | h⟩ <;> omega
    have ha : ¬(¬task.createdBy = uid ∧ ¬task.assignedTo = uid) := by
      rcases hauth with h | h
      · exact fun hc => hc.1 h
      · exact fun hc => hc.2 h
    unfold UpdateTask
    simp only [hid, hfind]
    rw [if_neg hp]
    simp only [hupd]
    rw [if_neg ha, if_pos ⟨hstat, by rw [hstatus2, htrans]; simp⟩]

/-- Witness for C1: the same-state change pending→pending by the creator is
rejected with the invalid-transition error, leaving the store unchanged
(and the pair is outside the transition table). -/
theorem c1_witness :
    UpdateTask wStore
      { id := hexT, title := "", description := "", status := "pending",
        priority := 0, dueDate := 0, updatedBy := hexA } 5
      = (.error (.msg "invalid status transition"), wStore) :=
  (c1_update_status_transition_table wStore
    { id := hexT, title := "", description := "", status := "pending",
      priority := 0, dueDate := 0, updatedBy := hexA } 5 10 wTask
    (by decide) (by decide) (by decide)).2.2 (by decide) (Or.inl rfl)
    1 (by decide) (Or.inl (by decide))

theorem advanceIfPending_id (t : Task) : (advanceIfPending t).id = t.id := by
  unfold advanceIfPending
  split <;> rfl

/-- Claim C3: for an existing task, `DeleteTask` and `AssignTask` requested
by a user id other than the task's created-by id fail with the unauthorized
error and leave the store (hence the task) unchanged; requested by the
creator, `DeleteTask` succeeds, and `AssignTask` succeeds whenever the
assignee id resolves to an existing user. -/
theorem c3_delete_assign_creator_only
    (s : Store) (tidS uidS aidS : String) (now : Int)
    (tid uid aid : ObjectID) (task : Task)
    (hpt : objectIDFromHex tidS = some tid)
    (hpu : objectIDFromHex uidS = some uid)
    (hpa : objectIDFromHex aidS = some aid)
    (hfind : s.findTaskByID tid = .ok task) :
    (¬task.createdBy = uid → DeleteTask s tidS uidS = (.error .unauthorized, s))
    ∧ (¬task.createdBy = uid →
        AssignTask s { taskID := tidS, assigneeID := aidS, assignedBy := uidS } now
          = (.error .unauthorized, s))
    ∧ (task.createdBy = uid → (DeleteTask s tidS uidS).1 = .ok ())
    ∧ (∀ au : User, task.createdBy = uid → s.findUserByID aid = .ok au →
        isOkE (AssignTask s { taskID := tidS, assigneeID := aidS, assignedBy := uidS } now).1
          = true) := by
  obtain ⟨hf, hidEq, hany⟩ := findTaskByID_ok_facts hfind
  refine ⟨?_, ?_, ?_, ?_⟩
  · intro hne
    unfold DeleteTask
    simp only [hpt, hpu, hfind]
    rw [if_pos hne]
  · intro hne
    unfold AssignTask
    simp only [hpt, hpa, hpu, hfind]
    rw [if_pos hne]
  · intro heq
    unfold DeleteTask
    simp only [hpt, hpu, hfind]
    rw [if_neg (by simp [heq])]
    unfold Store.deleteTaskRepo
    rw [if_pos hany]
  · intro au heq hau
    unfold AssignTask
    simp only [hpt, hpa, hpu, hfind]
    rw [if_neg (by simp [heq])]
    simp only [hau]
    unfold Store.updateTaskRepo
    rw [if_pos (by rw [advanceIfPending_id]; exact hidEq ▸ hany)]
    rfl

/-- Witness for C3: bob cannot delete or assign alice's task; alice can
delete it and can assign it to bob. -/
theorem c3_witness :
    DeleteTask wStore hexT hexB = (.error .unauthorized, wStore)
    ∧ AssignTask wStore { taskID := hexT, assigneeID := hexB, assignedBy := hexB } 5
        = (.error .unauthorized, wStore)
    ∧ (DeleteTask wStore hexT hexA).1 = .ok ()
    ∧ isOkE (AssignTask wStore { taskID := hexT, assigneeID := hexB, assignedBy := hexA } 5).1
        = true := by
  have hb := c3_delete_assign_creator_only wStore hexT hexB hexB 5 10 2 2 wTask
    (by decide) (by decide) (by decide) (by decide)
  have ha := c3_delete_assign_creator_only wStore hexT hexA hexB 5 10 1 2 wTask
    (by decide) (by decide) (by decide) (by decide)
  exact ⟨hb.1 (by decide), hb.2.1 (by decide), ha.2.2.1 (by decide),
    ha.2.2.2 bobU (by decide) (by decide)⟩

theorem advanceIfPending_assignedTo (t : Task) :
    (advanceIfPending t).assignedTo = t.assignedTo := by
  unfold advanceIfPending
  split <;> rfl

theorem advanceIfPending_status (t : Task) :
    (advanceIfPending t).status =
      if t.status = TaskStatusPending then TaskStatusInProgress else t.status := by
  unfold advanceIfPending
  split <;> rfl

theorem setFields_of_advance (task : Task) (aid : ObjectID) (now : Int) :
    setTaskFields task (advanceIfPending { task with assignedTo := aid }) now =
      { advanceIfPending { task with assignedTo := aid } with updatedAt := now } := by
  unfold setTaskFields advanceIfPending
  split <;> rfl

/-- Claim C5: a successful `AssignTask` returns, and stores, the task with
assigned-to equal to the assignee id; a task that was pending beforehand
comes out in progress, and a task in any other status keeps its previous
status. -/
theorem c5_assign_sets_assignee_and_advances_pending
    (s : Store) (input : AssignTaskInput) (now : Int) (tid aid : ObjectID)
    (task t2 : Task) (s2 : Store)
    (htid : objectIDFromHex input.taskID = some tid)
    (haid : objectIDFromHex input.assigneeID = some aid)
    (hfind : s.findTaskByID tid = .ok task)
    (hok : AssignTask s input now = (.ok t2, s2)) :
    t2.assignedTo = aid
    ∧ t2.status = (if task.status = TaskStatusPending then TaskStatusInProgress else task.status)
    ∧ s2.findTaskByID tid = .ok t2 := by
  obtain ⟨hff, hidEq, hany⟩ := findTaskByID_ok_facts hfind
  unfold AssignTask at hok
  simp only [htid, haid, hfind] at hok
  split at hok
  · exact absurd hok (by simp)
  · split at hok
    · exact absurd hok (by simp)
    · split at hok
      · split at hok <;> exact absurd hok (by simp)
      · split at hok
        · exact absurd hok (by simp)
        · rename_i s3 hrepo
          rw [Prod.mk.injEq] at hok
          obtain ⟨ht2, hs2⟩ := hok
          have ht2v := Except.ok.inj ht2
          refine ⟨?_, ?_, ?_⟩
          · rw [← ht2v]
            show (advanceIfPending { task with assignedTo := aid }).assignedTo = aid
            rw [advanceIfPending_assignedTo]
          · rw [← ht2v]
            show (advanceIfPending { task with assignedTo := aid }).status = _
            rw [advanceIfPending_status]
          · rw [← hs2]
            apply findTaskByID_ok_iff.mpr
            have hstep := findTask_after_updateRepo hrepo hff
            rw [if_pos] at hstep
            · rw [hstep, setFields_of_advance, ht2v]
            · rw [advanceIfPending_id]
              show (task.id == task.id) = true
              simp

/-- The concrete task produced by the witness assignment for C5. -/
def c5Task : Task :=
  { id := 10, title := "T", description := "", status := TaskStatusInProgress,
    priority := 3, dueDate := 0, assignedTo := 2, createdBy := 1,
    createdAt := 0, updatedAt := 5 }

/-- Witness for C5: alice assigns her pending task to bob; the result has
assigned-to bob and status in progress, and is what is stored. -/
theorem c5_witness :
    c5Task.assignedTo = 2
    ∧ c5Task.status =
        (if wTask.status = TaskStatusPending then TaskStatusInProgress else wTask.status)
    ∧ ({ tasks := [c5Task], users := [aliceU, bobU] } : Store).findTaskByID 10 = .ok c5Task :=
  c5_assign_sets_assignee_and_advances_pending wStore
    { taskID := hexT, assigneeID := hexB, assignedBy := hexA } 5 10 2 wTask c5Task
    { tasks := [c5Task], users := [aliceU, bobU] }
    (by decide) (by decide) (by decide) (by decide)

theorem validateUserInput_ok_email {input : RegisterUserInput} {u : Unit}
    (h : validateUserInput input = .ok u) : isValidEmail input.email = true := by
  unfold validateUserInput at h
  split_ifs at h with h1 h2 h3
  all_goals simpa using h2

theorem findUserByEmail_error_none {s : Store} {k : String} {e : Err}
    (h : s.findUserByEmail k = .error e) :
    s.users.find? (fun u => u.email == k) = none := by
  unfold Store.findUserByEmail at h
  cases hf : s.users.find? (fun u => u.email == k) with
  | none => rfl
  | some u => simp_all

theorem findUserByUsername_error_none {s : Store} {k : String} {e : Err}
    (h : s.findUserByUsername k = .error e) :
    s.users.find? (fun u => u.username == k) = none := by
  unfold Store.findUserByUsername at h
  cases hf : s.users.find? (fun u => u.username == k) with
  | none => rfl
  | some u => simp_all

theorem hashPassword_inj {p q : String}
    (h : ("$2a$10$" ++ p : String) = "$2a$10$" ++ q) : p = q := by
  have hd := congrArg String.data h
  simp only [String.data_append] at hd
  exact String.ext (List.append_cancel_left hd)

/-- Claim C6: after a successful `RegisterUser` with plaintext password P,
`ValidateCredentials` with that user's login identifier (email, or username
when the username does not look like an email) and P returns the user, and
with any password other than P fails with the invalid-credentials error. -/
theorem c6_register_validate_roundtrip
    (s : Store) (input : RegisterUserInput) (freshId : ObjectID) (now : Int)
    (user : User) (s2 : Store)
    (h : RegisterUser s input freshId now = (.ok user, s2)) :
    (ValidateCredentials s2 input.email input.password = .ok user
      ∧ ∀ q : String, q ≠ input.password →
          ValidateCredentials s2 input.email q = .error (.msg "invalid login credentials"))
    ∧ (isValidEmail input.username = false →
        ValidateCredentials s2 input.username input.password = .ok user
        ∧ ∀ q : String, q ≠ input.password →
            ValidateCredentials s2 input.username q
              = .error (.msg "invalid login credentials")) := by
  unfold RegisterUser at h
  split at h
  · exact absurd h (by simp)
  · rename_i u0 hval
    split at h
    · exact absurd h (by simp)
    · rename_i e1 hEmailErr
      split at h
      · exact absurd h (by simp)
      · rename_i e2 hUserErr
        split at h
        · exact absurd h (by simp)
        · rename_i hashed hHash
          split at h
          · exact absurd h (by simp)
          · rename_i us hCreate
            rw [Prod.mk.injEq] at h
            obtain ⟨h1, hs2⟩ := h
            have huser := Except.ok.inj h1
            unfold Store.createUser at hCreate
            split at hCreate
            · exact absurd hCreate (by simp)
            · split at hCreate
              · exact absurd hCreate (by simp)
              · have hus := Except.ok.inj hCreate
                have huser2 : user =
                    newUserDoc
                      { id := 0, username := input.username, email := input.email,
                        password := hashed, firstName := input.firstName,
                        lastName := input.lastName, createdAt := 0, updatedAt := 0 }
                      freshId now := by
                  rw [← huser, ← hus]
                have hs2v : s2.users = s.users ++ [user] := by
                  rw [← hs2, ← hus, huser2]
                have hhv : hashed = "$2a$10$" ++ input.password := (Except.ok.inj hHash).symm
                have huEmail : user.email = input.email := by rw [huser2]; rfl
                have huPass0 : user.password = hashed := by rw [huser2]; rfl
                have huPass : user.password = "$2a$10$" ++ input.password := huPass0.trans hhv
                have hvalEmail := validateUserInput_ok_email hval
                have hEmailNone := findUserByEmail_error_none hEmailErr
                have huName : user.username = input.username := by rw [huser2]; rfl
                have hUserNone := findUserByUsername_error_none hUserErr
                have hfindUser : s2.findUserByEmail input.email = .ok user := by
                  unfold Store.findUserByEmail
                  rw [hs2v, List.find?_append, hEmailNone, Option.none_or,
                    List.find?_singleton, if_pos (by simp [huEmail])]
                have hfindUserName : s2.findUserByUsername input.username = .ok user := by
                  unfold Store.findUserByUsername
                  rw [hs2v, List.find?_append, hUserNone, Option.none_or,
                    List.find?_singleton, if_pos (by simp [huName])]
                have hwrong : ∀ q : String, q ≠ input.password →
                    verifyPassword user.password q = false := by
                  intro q hq
                  unfold verifyPassword
                  rw [huPass]
                  simp only [beq_eq_false_iff_ne, ne_eq]
                  intro hc
                  exact hq (hashPassword_inj hc).symm
                refine ⟨⟨?_, ?_⟩, ?_⟩
                · unfold ValidateCredentials
                  rw [if_pos hvalEmail, hfindUser]
                  simp [verifyPassword, huPass]
                · intro q hq
                  unfold ValidateCredentials
                  rw [if_pos hvalEmail, hfindUser]
                  simp [hwrong q hq]
                · intro hnm
                  constructor
                  · unfold ValidateCredentials
                    rw [if_neg (by simp [hnm]), hfindUserName]
                    simp [verifyPassword, huPass]
                  · intro q hq
                    unfold ValidateCredentials
                    rw [if_neg (by simp [hnm]), hfindUserName]
                    simp [hwrong q hq]

/-- Witness for C6: registering alice and validating with the right and a
wrong password, by email and by username. -/
theorem c6_witness :
    ValidateCredentials
      (RegisterUser { tasks := [], users := [] }
        { username := "alice", email := "alice@x.com", password := "secret1",
          firstName := "", lastName := "" } 7 100).2
      "alice@x.com" "secret1"
      = .ok { id := 7, username := "alice", email := "alice@x.com",
              password := "$2a$10$secret1", firstName := "", lastName := "",
              createdAt := 100, updatedAt := 100 }
    ∧ ValidateCredentials
      (RegisterUser { tasks := [], users := [] }
        { username := "alice", email := "alice@x.com", password := "secret1",
          firstName := "", lastName := "" } 7 100).2
      "alice@x.com" "secret2"
      = .error (.msg "invalid login credentials")
    ∧ ValidateCredentials
      (RegisterUser { tasks := [], users := [] }
        { username := "alice", email := "alice@x.com", password := "secret1",
          firstName := "", lastName := "" } 7 100).2
      "alice" "secret1"
      = .ok { id := 7, username := "alice", email := "alice@x.com",
              password := "$2a$10$secret1", firstName := "", lastName := "",
              createdAt := 100, updatedAt := 100 } := by
  have main := c6_register_validate_roundtrip { tasks := [], users := [] }
    { username := "alice", email := "alice@x.com", password := "secret1",
      firstName := "", lastName := "" } 7 100
    { id := 7, username := "alice", email := "alice@x.com",
      password := "$2a$10$secret1", firstName := "", lastName := "",
      createdAt := 100, updatedAt := 100 }
    (RegisterUser { tasks := [], users := [] }
      { username := "alice", email := "alice@x.com", password := "secret1",
        firstName := "", lastName := "" } 7 100).2
    (by decide)
  exact ⟨main.1.1, main.1.2 "secret2" (by decide), (main.2 (by decide)).1⟩

/-- The store produced by `UpdateTask` is either unchanged or the result of
one successful repository write. -/
theorem updateTask_store_write (s : Store) (input : UpdateTaskInput) (now : Int) :
    (UpdateTask s input now).2 = s ∨
      ∃ t, s.updateTaskRepo t now = .ok (UpdateTask s input now).2 := by
  unfold UpdateTask
  split
  · exact Or.inl rfl
  · split
    · exact Or.inl rfl
    · split
      · exact Or.inl rfl
      · split
        · exact Or.inl rfl
        · split
          · exact Or.inl rfl
          · split
            · exact Or.inl rfl
            · split
              · exact Or.inl rfl
              · rename_i task hfind s2 hrepo
                exact Or.inr ⟨_, hrepo⟩

/-- The store produced by `AssignTask` is either unchanged or the result of
one successful repository write. -/
theorem assignTask_store_write (s : Store) (input : AssignTaskInput) (now : Int) :
    (AssignTask s input now).2 = s ∨
      ∃ t, s.updateTaskRepo t now = .ok (AssignTask s input now).2 := by
  unfold AssignTask
  split
  · exact Or.inl rfl
  · split
    · exact Or.inl rfl
    · split
      · exact Or.inl rfl
      · split
        · exact Or.inl rfl
        · split
          · exact Or.inl rfl
          · split
            · split
              · exact Or.inl rfl
              · exact Or.inl rfl
            · split
              · exact Or.inl rfl
              · rename_i s2 hrepo
                exact Or.inr ⟨_, hrepo⟩

/-- A successful repository write never changes the created-by field of any
stored task: the `$set` document does not contain `created_by`. -/
theorem updateRepo_preserves_createdBy {s : Store} {t : Task} {now : Int} {s2 : Store}
    {tid : ObjectID} {u : Task}
    (h : s.updateTaskRepo t now = .ok s2)
    (hu : s.tasks.find? (fun x => x.id == tid) = some u) :
    ∃ v, s2.tasks.find? (fun x => x.id == tid) = some v ∧ v.createdBy = u.createdBy := by
  refine ⟨_, findTask_after_updateRepo h hu, ?_⟩
  split
  · exact setTaskFields_createdBy u t now
  · rfl

/-- One `UpdateTask` or `AssignTask` operation preserves the presence and the
created-by field of every stored task. -/
theorem applyOp_preserves_createdBy (s : Store) (op : TaskOp) (tid : ObjectID) (u : Task)
    (hu : s.findTaskByID tid = .ok u) :
    ∃ v, (applyOp s op).findTaskByID tid = .ok v ∧ v.createdBy = u.createdBy := by
  have hff := findTaskByID_ok_iff.mp hu
  cases op with
  | update input now =>
    rcases updateTask_store_write s input now with hsame | ⟨t, hw⟩
    · exact ⟨u, by rw [applyOp, hsame]; exact hu, rfl⟩
    · obtain ⟨v, hv, hcb⟩ := updateRepo_preserves_createdBy hw hff
      exact ⟨v, findTaskByID_ok_iff.mpr hv, hcb⟩
  | assign input now =>
    rcases assignTask_store_write s input now with hsame | ⟨t, hw⟩
    · exact ⟨u, by rw [applyOp, hsame]; exact hu, rfl⟩
    · obtain ⟨v, hv, hcb⟩ := updateRepo_preserves_createdBy hw hff
      exact ⟨v, findTaskByID_ok_iff.mpr hv, hcb⟩

/-- Claim C9: across any sequence of `UpdateTask` and `AssignTask`
operations, a stored task's created-by field stays what it was at creation:
no operation other than task creation writes created-by. -/
theorem c9_createdBy_immutable
    (s : Store) (ops : List TaskOp) (tid : ObjectID) (task : Task)
    (hfind : s.findTaskByID tid = .ok task) :
    ∀ task2, (applyOps s ops).findTaskByID tid = .ok task2 →
      task2.createdBy = task.createdBy := by
  induction ops generalizing s task with
  | nil =>
    intro task2 h2
    have : task = task2 := Except.ok.inj (hfind.symm.trans h2)
    rw [← this]
  | cons op rest ih =>
    intro task2 h2
    obtain ⟨v, hv, hcb⟩ := applyOp_preserves_createdBy s op tid task hfind
    have hrest : (applyOps (applyOp s op) rest).findTaskByID tid = .ok task2 := h2
    exact (ih (applyOp s op) v hv task2 hrest).trans hcb

/-- The stored task after the witness sequence for C9. -/
def c9Task : Task :=
  { id := 10, title := "u", description := "", status := TaskStatusInProgress,
    priority := 3, dueDate := 0, assignedTo := 2, createdBy := 1,
    createdAt := 0, updatedAt := 6 }

/-- Witness for C9: after an assignment by alice and an update by bob, the
stored task's created-by is still alice's id. -/
theorem c9_witness : c9Task.createdBy = wTask.createdBy :=
  c9_createdBy_immutable wStore
    [TaskOp.assign { taskID := hexT, assigneeID := hexB, assignedBy := hexA } 5,
     TaskOp.update
       { id := hexT, title := "u", description := "", status := "",
         priority := 0, dueDate := 0, updatedBy := hexB } 6]
    10 wTask (by decide) c9Task (by decide)

/-- Witness for C7: a wrong password for an existing user fails, and the
error is the generic invalid-credentials value. -/
theorem c7_witness :
    ValidateCredentials wStore "alice@x.com" "bad" = .error (Err.msg "invalid login credentials") ∧
      Err.msg "invalid login credentials" = Err.msg "invalid login credentials" :=
  ⟨by decide,
    c7_validateCredentials_single_generic_error wStore "alice@x.com" "bad" _ (by decide)⟩

end TaskMgmt
